import Mathlib

/-
  Verification of the request-to-response pipeline of req.cpp
  (a C++20 port of the Python requests library API).

  Shallow embedding: each C++ class that the claims touch is translated
  into a Lean structure or inductive; each member function into a Lean
  function over explicit state.  C++ std::map is modelled as a function
  from keys to optional values (iteration order is irrelevant to every
  property below); std::vector as List; std::optional as Option;
  std::string as String; byte vectors as List Nat; exceptions as
  Except over an explicit error inductive.  Fields holding
  std::function values (hook lists) are omitted: no claim touches them
  and function-typed fields would make the response type ill-founded.
-/

namespace Requests

/-- ASCII lower-casing of a string, mirroring the per-character
std::tolower loop in case_insensitive_dict::to_lower. -/
def to_lower (s : String) : String := ⟨s.data.map Char.toLower⟩

/-- ASCII upper-casing of a string, mirroring the per-character
std::toupper loop in prepared_request::prepare_method. -/
def to_upper (s : String) : String := ⟨s.data.map Char.toUpper⟩

/-- Bytes of a string, mirroring the reinterpret_cast of the char data
used when a std::string is copied into a std::vector of std::byte. -/
def str_bytes (s : String) : List Nat := s.data.map Char.toNat

/-- The exception taxonomy of req.cpp restricted to the kinds the
claims mention; each carries the what() message. -/
inductive req_error : Type where
  | http_error (msg : String)
  | too_many_redirects (msg : String)
  | missing_schema (msg : String)
  | invalid_schema (msg : String)
  | invalid_url (msg : String)
deriving DecidableEq, Repr

/-- case_insensitive_dict: std::map from the lower-cased key to the
pair (original-case key, value), modelled as a function from the
lower-cased key to an optional pair. -/
structure case_insensitive_dict : Type where
  data : String → Option (String × String)

/-- The empty case_insensitive_dict (default constructed). -/
def cid_empty : case_insensitive_dict := ⟨fun _ => none⟩

/-- case_insensitive_dict::set - store under the lower-cased key,
preserving the original case, replacing any previous entry. -/
def case_insensitive_dict.set (d : case_insensitive_dict)
    (key value : String) : case_insensitive_dict :=
  ⟨fun k => if k = to_lower key then some (key, value) else d.data k⟩

/-- case_insensitive_dict::get - look the lower-cased key up and
return the stored value. -/
def case_insensitive_dict.get (d : case_insensitive_dict)
    (key : String) : Option String :=
  (d.data (to_lower key)).map Prod.snd

/-- case_insensitive_dict::contains - membership by lower-cased key. -/
def case_insensitive_dict.contains (d : case_insensitive_dict)
    (key : String) : Bool :=
  (d.data (to_lower key)).isSome

/-- A cookie with the attribute set of req.cpp's cookie struct. -/
structure cookie : Type where
  name : String
  value : String
  domain : String := ""
  path : String := "/"
  domain_specified : Bool := false
  domain_initial_dot : Bool := false
  path_specified : Bool := false
  secure : Bool := false
  expires : Option Nat := none
  discard : Bool := true
  comment : Option String := none
  comment_url : Option String := none
  http_only : Bool := false
  version : Int := 0
  rfc2109 : Bool := false
deriving DecidableEq, Repr

/-- cookie_jar: a std::vector of cookie. -/
structure cookie_jar : Type where
  cookies : List cookie
deriving DecidableEq, Repr

/-- The predicate of the cookie_jar::get loop: name must be equal, and
when a domain or path filter is supplied the cookie's field must be
exactly equal to it. -/
def cookie_match (name : String) (domain path : Option String)
    (c : cookie) : Bool :=
  c.name == name
    && (match domain with | some d => c.domain == d | none => true)
    && (match path with | some p => c.path == p | none => true)

/-- cookie_jar::get - return the value of the first cookie whose name
matches and whose domain/path equal the optional filters. -/
def cookie_jar.get (j : cookie_jar) (name : String)
    (domain path : Option String) : Option String :=
  (j.cookies.find? (cookie_match name domain path)).map cookie.value

/-- cookie_jar::set_cookie - push_back the cookie unconditionally. -/
def cookie_jar.set_cookie (j : cookie_jar) (c : cookie) : cookie_jar :=
  ⟨j.cookies ++ [c]⟩

/-- Whether two cookies share the (name, domain, path) triple. -/
def same_triple (a b : cookie) : Bool :=
  a.name == b.name && a.domain == b.domain && a.path == b.path

/-- timeout: optional connect and read bounds in milliseconds. -/
structure timeout : Type where
  connect : Option Nat
  read : Option Nat
deriving DecidableEq, Repr

/-- verify_config: std::variant of bool and a CA-bundle path. -/
inductive verify_config : Type where
  | flag (b : Bool)
  | ca_bundle (path : String)
deriving DecidableEq, Repr

/-- cert_config: client certificate path with optional key path. -/
structure cert_config : Type where
  cert_path : String
  key_path : Option String
deriving DecidableEq, Repr

/-- proxy_config: protocol-to-proxy URL mapping. -/
structure proxy_config : Type where
  http : Option String := none
  https : Option String := none
  socks5 : Option String := none
deriving DecidableEq, Repr

/-- upload_file: one file of a multipart upload. -/
structure upload_file : Type where
  field_name : String
  filename : String
  content : List Nat
  content_type : Option String := none
deriving DecidableEq, Repr

/-- files_dict: std::vector of upload_file. -/
def files_dict : Type := List upload_file

/-- The payload of the std::variant of std::string and a byte vector
used for the data argument. -/
inductive body_data : Type where
  | str (s : String)
  | bytes (b : List Nat)
deriving DecidableEq, Repr

/-- The closed set of auth_base implementations in req.cpp, each
holding the credentials of its constructor. -/
inductive auth_base : Type where
  | basic (username password : String)
  | digest (username password : String)
  | proxy_auth (username password : String)

/-- prepared_request: method, url, headers, body and cookies.  The
hooks field (std::function values) and body_position (never read) are
omitted; no claim below touches them. -/
structure prepared_request : Type where
  method : String := ""
  url : String := ""
  headers : case_insensitive_dict := cid_empty
  body : List Nat := []
  cookies : cookie_jar := ⟨[]⟩

/-- auth_base::operator() of each concrete handler.  In req.cpp all
three overrides have an empty body, so the request is returned
unchanged. -/
def auth_apply : auth_base → prepared_request → prepared_request :=
  fun _ r => r

/-- request_options: the optional per-call parameters.  The hooks_cfg
field (a list of std::function values) is omitted; no claim below
touches it. -/
structure request_options : Type where
  params : Option (List (String × String)) := none
  data : Option body_data := none
  json : Option String := none
  headers : Option case_insensitive_dict := none
  cookies : Option cookie_jar := none
  files : Option files_dict := none
  auth : Option auth_base := none
  timeout_cfg : Option timeout := none
  allow_redirects : Option Bool := none
  proxies : Option proxy_config := none
  stream : Option Bool := none
  verify : Option verify_config := none
  cert : Option cert_config := none

/-- prepared_request::prepare_method - store the upper-cased method. -/
def prepared_request.prepare_method (pr : prepared_request)
    (method : String) : prepared_request :=
  { pr with method := to_upper method }

/-- prepared_request::prepare_url - store the url verbatim and append
the query parameters when a non-empty map is supplied; the list holds
the std::map entries in ascending key order.  No scheme or syntax
validation is performed. -/
def prepared_request.prepare_url (pr : prepared_request) (url : String)
    (params : Option (List (String × String))) : prepared_request :=
  match params with
  | some ps =>
    if ps.isEmpty then { pr with url := url }
    else
      let sep := if url.contains '?' then "&" else "?"
      let query := String.intercalate "&" (ps.map (fun kv => kv.1 ++ "=" ++ kv.2))
      { pr with url := url ++ sep ++ query }
  | none => { pr with url := url }

/-- prepared_request::prepare_headers - replace the headers wholesale. -/
def prepared_request.prepare_headers (pr : prepared_request)
    (headers : case_insensitive_dict) : prepared_request :=
  { pr with headers := headers }

/-- prepared_request::prepare_content_length - set Content-Length when
the body is non-empty. -/
def prepared_request.prepare_content_length
    (pr : prepared_request) : prepared_request :=
  if pr.body.isEmpty then pr
  else { pr with
    headers := pr.headers.set "Content-Length" (toString pr.body.length) }

/-- prepared_request::prepare_body - json (if present) becomes the body
and forces Content-Type application/json; otherwise data (string or
byte vector) becomes the body verbatim.  The files parameter is
accepted but never read by the source. -/
def prepared_request.prepare_body (pr : prepared_request)
    (data : Option body_data) (files : Option files_dict)
    (json : Option String) : prepared_request :=
  let pr1 := match json with
    | some s =>
        { pr with
          body := str_bytes s
          headers := pr.headers.set "Content-Type" "application/json" }
    | none => match data with
      | some (body_data.str s) => { pr with body := str_bytes s }
      | some (body_data.bytes b) => { pr with body := b }
      | none => pr
  pr1.prepare_content_length

/-- prepared_request::prepare_cookies - replace the cookie snapshot. -/
def prepared_request.prepare_cookies (pr : prepared_request)
    (cookies : cookie_jar) : prepared_request :=
  { pr with cookies := cookies }

/-- prepared_request::prepare_auth - invoke the handler on the request. -/
def prepared_request.prepare_auth (pr : prepared_request)
    (auth : auth_base) : prepared_request :=
  auth_apply auth pr

/-- prepared_request::prepare - the full preparation sequence. -/
def prepared_request.prepare (pr : prepared_request) (method url : String)
    (headers : Option case_insensitive_dict) (files : Option files_dict)
    (data : Option body_data) (params : Option (List (String × String)))
    (auth : Option auth_base) (cookies : Option cookie_jar)
    (json : Option String) : prepared_request :=
  let pr := pr.prepare_method method
  let pr := pr.prepare_url url params
  let pr := match headers with | some h => pr.prepare_headers h | none => pr
  let pr := match cookies with | some c => pr.prepare_cookies c | none => pr
  let pr := pr.prepare_body data files json
  match auth with | some a => pr.prepare_auth a | none => pr

/-- response: status, headers, url, body, encoding, reason, cookies,
elapsed milliseconds, redirect history (oldest first) and the request
that produced it.  Recursive through the history vector, hence an
inductive type. -/
inductive response : Type where
  | mk (status_code : Nat) (headers : case_insensitive_dict) (url : String)
      (content : List Nat) (encoding : String) (reason : String)
      (cookies : cookie_jar) (elapsed : Nat) (history : List response)
      (request : Option prepared_request)

/-- response::status_code. -/
def response.status_code : response → Nat
  | .mk s _ _ _ _ _ _ _ _ _ => s

/-- response::headers. -/
def response.headers : response → case_insensitive_dict
  | .mk _ h _ _ _ _ _ _ _ _ => h

/-- response::url. -/
def response.url : response → String
  | .mk _ _ u _ _ _ _ _ _ _ => u

/-- response::content. -/
def response.content : response → List Nat
  | .mk _ _ _ c _ _ _ _ _ _ => c

/-- response::reason. -/
def response.reason : response → String
  | .mk _ _ _ _ _ r _ _ _ _ => r

/-- response::history. -/
def response.history : response → List response
  | .mk _ _ _ _ _ _ _ _ h _ => h

/-- response::ok - true when status_code is below 400. -/
def response.ok (r : response) : Bool :=
  r.status_code < 400

/-- response::is_redirect - a 3xx redirect status with a Location
header. -/
def response.is_redirect (r : response) : Bool :=
  (r.status_code == 301 || r.status_code == 302 || r.status_code == 303
    || r.status_code == 307 || r.status_code == 308)
    && r.headers.contains "Location"

/-- response::raise_for_status - throw http_error when the status code
is at least 400, with the status code and reason as the message;
otherwise return normally. -/
def response.raise_for_status (r : response) : Except req_error Unit :=
  if 400 ≤ r.status_code then
    Except.error (req_error.http_error
      (toString r.status_code ++ " " ++ r.reason))
  else Except.ok ()

/-- http_adapter: pool configuration fields. -/
structure http_adapter : Type where
  pool_connections : Nat := 10
  pool_maxsize : Nat := 10
  max_retries : Nat := 0
  pool_block : Bool := false
deriving DecidableEq, Repr

/-- http_adapter::send - the source unconditionally returns a freshly
default-constructed response with status 200, reason OK and the
request's url; every other argument is ignored and no connection,
retry, timeout or redirect logic exists. -/
def http_adapter.send (a : http_adapter) (request : prepared_request)
    (stream : Bool) (timeout_cfg : Option timeout)
    (verify : verify_config) (cert : Option cert_config)
    (proxies : Option proxy_config) : Except req_error response :=
  Except.ok (response.mk 200 cid_empty request.url [] "" "OK" ⟨[]⟩ 0 [] none)

/-- The default headers installed by the session constructor. -/
def default_session_headers : case_insensitive_dict :=
  ((((cid_empty.set "User-Agent" "requests-cpp/1.0").set
      "Accept" "*/*").set
      "Accept-Encoding" "gzip, deflate").set
      "Connection" "keep-alive")

/-- session: persistent defaults.  The adapters_ map is modelled by a
single http_adapter field: both default mounts and every adapter
constructed anywhere in the source are http_adapter, and
session::get_adapter always yields one of them. -/
structure session : Type where
  headers : case_insensitive_dict := default_session_headers
  cookies : cookie_jar := ⟨[]⟩
  auth : Option auth_base := none
  proxies : proxy_config := {}
  params : List (String × String) := []
  stream : Bool := false
  verify : verify_config := .flag true
  cert : Option cert_config := none
  max_redirects : Nat := 30
  trust_env : Bool := true
  adapter : http_adapter := {}

/-- session::send - select the adapter for the url and dispatch once,
filling unset options from the session defaults.  There is no redirect
loop: the adapter's response is returned as is. -/
def session.send (s : session) (prepped : prepared_request)
    (opts : request_options) : Except req_error response :=
  s.adapter.send prepped (opts.stream.getD s.stream) opts.timeout_cfg
    (opts.verify.getD s.verify)
    (if opts.cert.isSome then opts.cert else s.cert)
    (if opts.proxies.isSome then opts.proxies else some s.proxies)

/-- session::request - build the prepared request from the options and
send it.  The requests::request intermediary of the source defaults
absent arguments (data to an empty string variant) and its prepare()
forwards a field only when non-empty; forwarding an empty dict, jar or
parameter list is observationally identical to omitting it, because
prepare_headers and prepare_cookies replace wholesale on an empty
prepared_request and prepare_url ignores an empty parameter list, so
the embedding forwards the options directly. -/
def session.request (s : session) (method url : String)
    (opts : request_options) : Except req_error response :=
  let prepped := prepared_request.prepare {} method url opts.headers
    opts.files (some (opts.data.getD (body_data.str ""))) opts.params
    opts.auth opts.cookies opts.json
  s.send prepped opts

/-- The option rewrite performed inline by session::head and the
top-level head: allow_redirects is forced to false. -/
def head_options (opts : request_options) : request_options :=
  { opts with allow_redirects := some false }

/-- session::head - force allow_redirects to false, then dispatch a
HEAD request. -/
def session.head (s : session) (url : String)
    (opts : request_options) : Except req_error response :=
  s.request "HEAD" url (head_options opts)

/-- The top-level request function: a temporary default session. -/
def request (method url : String)
    (opts : request_options) : Except req_error response :=
  session.request {} method url opts

/-- The top-level head function: force allow_redirects to false, then
dispatch through a temporary default session. -/
def head (url : String) (opts : request_options) :
    Except req_error response :=
  request "HEAD" url (head_options opts)

/-
  Theorems
-/

/-- Helper: how get reads through set in the case-insensitive store. -/
theorem cid_get_set (d : case_insensitive_dict) (k v k' : String) :
    (d.set k v).get k' =
      if to_lower k' = to_lower k then some v else d.get k' := by
  simp only [case_insensitive_dict.set, case_insensitive_dict.get]
  by_cases h : to_lower k' = to_lower k <;> simp [h]

/-- C9: values stored in the case-insensitive header store are read
back identically under every case variant of the key, and the last set
for a case-folded key wins. -/
theorem case_insensitive_store_case_folds (d : case_insensitive_dict)
    (x y v w : String) (h : to_lower x = to_lower y) :
    d.get x = d.get y ∧
    ((d.set x v).set y w).get x = some w ∧
    ((d.set x v).set y w).get y = some w := by
  refine ⟨?_, ?_, ?_⟩
  · simp [case_insensitive_dict.get, h]
  · rw [cid_get_set]; simp [h]
  · rw [cid_get_set]; simp

/-- C9 witness: concrete instance with keys X and x. -/
theorem case_insensitive_store_case_folds_witness :
    ((cid_empty.set "X" "1").set "x" "2").get "X" = some "2" ∧
    ((cid_empty.set "X" "1").set "x" "2").get "x" = some "2" :=
  ⟨(case_insensitive_store_case_folds cid_empty "X" "x" "1" "2" rfl).2.1,
   (case_insensitive_store_case_folds cid_empty "X" "x" "1" "2" rfl).2.2⟩

/-- C3: the Basic auth handler's operator() has an empty body in the
source, so applying it leaves the prepared request - in particular its
Authorization header - completely unchanged, contradicting the claimed
Authorization: Basic header. -/
theorem basic_auth_sets_no_header (u p : String) (r : prepared_request) :
    r.prepare_auth (auth_base.basic u p) = r ∧
    (r.prepare_auth (auth_base.basic u p)).headers.get "Authorization"
      = r.headers.get "Authorization" :=
  ⟨rfl, rfl⟩

/-- C6 counterexample: the empty method is accepted and produces an
empty prepared method; prepare_method is total and no InvalidRequest
error exists anywhere in the source. -/
theorem prepare_method_empty_accepted :
    (prepared_request.prepare_method {} "").method = "" := rfl

/-- C6 amended: the prepared method is the upper-cased input for every
input, the empty string included, and no other field of the prepared
request changes; no validation or error path exists. -/
theorem prepare_method_uppercases (pr : prepared_request) (m : String) :
    (pr.prepare_method m).method = to_upper m ∧
    (pr.prepare_method m).url = pr.url ∧
    (pr.prepare_method m).headers = pr.headers ∧
    (pr.prepare_method m).body = pr.body ∧
    (pr.prepare_method m).cookies = pr.cookies :=
  ⟨rfl, rfl, rfl, rfl, rfl⟩

/-- C10: both session::head and the top-level head force
allow_redirects to false before dispatching to request, overriding any
caller-supplied value, and change no other option field. -/
theorem head_forces_allow_redirects (s : session) (url : String)
    (opts : request_options) (b : Option Bool) :
    s.head url opts = s.request "HEAD" url (head_options opts) ∧
    Requests.head url opts = Requests.request "HEAD" url (head_options opts) ∧
    (head_options opts).allow_redirects = some false ∧
    head_options { opts with allow_redirects := b } = head_options opts ∧
    (head_options opts).params = opts.params ∧
    (head_options opts).data = opts.data ∧
    (head_options opts).json = opts.json ∧
    (head_options opts).headers = opts.headers ∧
    (head_options opts).cookies = opts.cookies ∧
    (head_options opts).files = opts.files ∧
    (head_options opts).auth = opts.auth ∧
    (head_options opts).timeout_cfg = opts.timeout_cfg ∧
    (head_options opts).proxies = opts.proxies ∧
    (head_options opts).stream = opts.stream ∧
    (head_options opts).verify = opts.verify ∧
    (head_options opts).cert = opts.cert :=
  ⟨rfl, rfl, rfl, rfl, rfl, rfl, rfl, rfl, rfl, rfl, rfl, rfl, rfl, rfl,
   rfl, rfl⟩

/-- C8: raise_for_status is a no-op on status 200; on status 404 it
yields an http_error whose message begins with 404; and the adapter
send path never produces any error itself, so http_error arises only
from the explicit call. -/
theorem raise_for_status_spec (r : response) :
    (r.status_code = 200 → r.raise_for_status = Except.ok ()) ∧
    (r.status_code = 404 →
      r.raise_for_status =
        Except.error (req_error.http_error ("404 " ++ r.reason))) ∧
    (∀ (a : http_adapter) (pr : prepared_request) (st : Bool)
        (tc : Option timeout) (vf : verify_config)
        (ct : Option cert_config) (px : Option proxy_config)
        (e : req_error),
      a.send pr st tc vf ct px ≠ Except.error e) := by
  refine ⟨?_, ?_, ?_⟩
  · intro h
    simp [response.raise_for_status, h]
  · intro h
    have e1 : (toString (404 : Nat) ++ " ") = "404 " := by decide
    simp [response.raise_for_status, h, e1]
  · intro a pr st tc vf ct px e h
    simp [http_adapter.send] at h

/-- C8 witness: concrete 200 and 404 responses. -/
theorem raise_for_status_spec_witness :
    (response.mk 200 cid_empty "" [] "" "OK" ⟨[]⟩ 0 []
      none).raise_for_status = Except.ok () ∧
    (response.mk 404 cid_empty "" [] "" "Not Found" ⟨[]⟩ 0 []
      none).raise_for_status =
      Except.error (req_error.http_error ("404 " ++ "Not Found")) :=
  ⟨(raise_for_status_spec _).1 rfl, (raise_for_status_spec _).2.1 rfl⟩

/-- C5: prepare_url performs no validation at all: it stores any url
verbatim (with the query string appended when parameters are given),
touches no other field and has no error path, so MissingSchema,
InvalidSchema and InvalidURL are never raised. -/
theorem prepare_url_no_validation (pr : prepared_request) (u : String)
    (ps : Option (List (String × String))) :
    (pr.prepare_url u none).url = u ∧
    (∃ suffix, (pr.prepare_url u ps).url = u ++ suffix) ∧
    (pr.prepare_url u ps).method = pr.method ∧
    (pr.prepare_url u ps).headers = pr.headers ∧
    (pr.prepare_url u ps).body = pr.body ∧
    (pr.prepare_url u ps).cookies = pr.cookies := by
  have hfields : ∀ (q : Option (List (String × String))),
      (pr.prepare_url u q).method = pr.method ∧
      (pr.prepare_url u q).headers = pr.headers ∧
      (pr.prepare_url u q).body = pr.body ∧
      (pr.prepare_url u q).cookies = pr.cookies := by
    intro q
    cases q with
    | none => exact ⟨rfl, rfl, rfl, rfl⟩
    | some l =>
      by_cases hl : l.isEmpty <;>
        simp [prepared_request.prepare_url, hl]
  refine ⟨rfl, ?_, (hfields ps).1, (hfields ps).2.1, (hfields ps).2.2.1,
    (hfields ps).2.2.2⟩
  cases ps with
  | none => exact ⟨"", by simp [prepared_request.prepare_url]⟩
  | some l =>
    by_cases hl : l.isEmpty
    · exact ⟨"", by simp [prepared_request.prepare_url, hl]⟩
    · refine ⟨(if u.contains '?' then "&" else "?") ++
        String.intercalate "&" (l.map (fun kv => kv.1 ++ "=" ++ kv.2)), ?_⟩
      simp [prepared_request.prepare_url, hl, String.append_assoc]

/-- C5 witness: a url with no scheme is stored verbatim, no error. -/
theorem prepare_url_no_validation_witness :
    (prepared_request.prepare_url {} "no-scheme" none).url = "no-scheme" :=
  (prepare_url_no_validation {} "no-scheme" none).1

/-- C1: session::send dispatches exactly once to http_adapter::send,
which unconditionally returns status 200 with empty history; no
redirect loop exists, max_redirects is never consulted and
too_many_redirects is never raised. -/
theorem session_send_never_follows_redirects (s : session)
    (pr : prepared_request) (opts : request_options) :
    s.send pr opts =
      Except.ok (response.mk 200 cid_empty pr.url [] "" "OK" ⟨[]⟩ 0 []
        none) ∧
    (∀ r, s.send pr opts = Except.ok r →
      r.history = [] ∧ r.status_code = 200) ∧
    (∀ m, s.send pr opts ≠ Except.error (req_error.too_many_redirects m)) := by
  refine ⟨rfl, ?_, ?_⟩
  · intro r h
    have h2 : Except.ok (response.mk 200 cid_empty pr.url [] "" "OK"
        ⟨[]⟩ 0 [] none) = Except.ok r := h
    injection h2 with h3
    subst h3
    exact ⟨rfl, rfl⟩
  · intro m h
    simp [session.send, http_adapter.send] at h

/-- C1 witness: concrete default session, request and options. -/
theorem session_send_never_follows_redirects_witness :
    ({} : session).send {} {} =
      Except.ok (response.mk 200 cid_empty "" [] "" "OK" ⟨[]⟩ 0 [] none) :=
  (session_send_never_follows_redirects {} {} {}).1

/-- Helper: every match of the cookie_jar::get loop predicate is an
exact equality on name, domain and path. -/
theorem cookie_match_iff (n d p : String) (c : cookie) :
    cookie_match n (some d) (some p) c = true ↔
      (c.name = n ∧ c.domain = d ∧ c.path = p) := by
  simp [cookie_match, and_assoc]

/-- C2 counterexample: a cookie with the leading-dot domain
.example.com is not returned when the jar is read for host
sub.example.com, and cookie path /a does not match request path /a/b;
the source compares domain and path exactly. -/
theorem cookie_get_no_domain_path_matching :
    (cookie_jar.get
        ⟨[{ name := "t", value := "v", domain := ".example.com",
            path := "/a" }]⟩
        "t" (some "sub.example.com") (some "/a")) = none ∧
    (cookie_jar.get
        ⟨[{ name := "t", value := "v", domain := ".example.com",
            path := "/a" }]⟩
        "t" (some ".example.com") (some "/a/b")) = none ∧
    (cookie_jar.get
        ⟨[{ name := "t", value := "v", domain := ".example.com",
            path := "/a" }]⟩
        "t" (some ".example.com") (some "/a")) = some "v" := by
  refine ⟨by decide, by decide, by decide⟩

/-- C2 amended: a cookie jar read with domain and path filters returns
a value exactly when some stored cookie has literally equal name,
domain and path, and the value returned is that of the first such
cookie; no sub-domain or path-prefix widening occurs. -/
theorem cookie_get_exact_equality (j : cookie_jar) (n d p : String) :
    ((j.get n (some d) (some p)).isSome ↔
      ∃ c ∈ j.cookies, c.name = n ∧ c.domain = d ∧ c.path = p) ∧
    (∀ v, j.get n (some d) (some p) = some v →
      ∃ c ∈ j.cookies, c.name = n ∧ c.domain = d ∧ c.path = p ∧
        c.value = v) := by
  have hiso : ∀ (o : Option cookie) (f : cookie → String),
      (o.map f).isSome = o.isSome := by
    intro o f; cases o <;> rfl
  constructor
  · rw [cookie_jar.get, hiso, List.find?_isSome]
    simp only [cookie_match_iff]
  · intro v hv
    rw [cookie_jar.get] at hv
    rcases hfind : j.cookies.find? (cookie_match n (some d) (some p))
      with _ | c
    · rw [hfind] at hv; simp at hv
    · rw [hfind] at hv
      have hv2 : c.value = v := by
        have h3 : some (cookie.value c) = some v := hv
        injection h3
      have hc := List.mem_of_find?_eq_some hfind
      have hp := (cookie_match_iff n d p c).mp (List.find?_some hfind)
      exact ⟨c, hc, hp.1, hp.2.1, hp.2.2, hv2⟩

/-- C2 witness: an exactly matching cookie is found. -/
theorem cookie_get_exact_equality_witness :
    (cookie_jar.get
        ⟨[{ name := "t", value := "v", domain := "example.com",
            path := "/" }]⟩
        "t" (some "example.com") (some "/")).isSome :=
  (cookie_get_exact_equality
      ⟨[{ name := "t", value := "v", domain := "example.com",
          path := "/" }]⟩ "t" "example.com" "/").1.mpr
    ⟨{ name := "t", value := "v", domain := "example.com", path := "/" },
      by simp, rfl, rfl, rfl⟩

/-- Helper: prepare_content_length never changes the body. -/
theorem prepare_content_length_body (pr : prepared_request) :
    pr.prepare_content_length.body = pr.body := by
  rw [prepared_request.prepare_content_length]
  by_cases h : pr.body.isEmpty <;> simp [h]

/-- Helper: prepare_content_length changes no header other than
Content-Length. -/
theorem prepare_content_length_get (pr : prepared_request) (k : String)
    (hk : to_lower k ≠ to_lower "Content-Length") :
    pr.prepare_content_length.headers.get k = pr.headers.get k := by
  rw [prepared_request.prepare_content_length]
  by_cases h : pr.body.isEmpty
  · simp [h]
  · simp [h, cid_get_set, hk]

/-- C4 counterexample: with only files supplied, prepare_body returns
the request unchanged - empty body and no Content-Type - instead of
building a multipart body with a generated boundary. -/
theorem prepare_body_ignores_files :
    (prepared_request.prepare_body {} none
        (some [{ field_name := "f", filename := "a.txt",
                 content := [104, 105] }]) none) = ({} : prepared_request) ∧
    (prepared_request.prepare_body {} none
        (some [{ field_name := "f", filename := "a.txt",
                 content := [104, 105] }]) none).headers.get "Content-Type"
      = none :=
  ⟨rfl, rfl⟩

/-- C4 amended: json (if present) is serialized into the body and
forces Content-Type application/json, overriding data; otherwise data
(string or raw bytes) becomes the body verbatim; the files argument is
ignored entirely. -/
theorem prepare_body_precedence (pr : prepared_request)
    (data : Option body_data) (files : Option files_dict)
    (json : Option String) :
    pr.prepare_body data files json = pr.prepare_body data none json ∧
    (∀ s, json = some s →
      (pr.prepare_body data files json).body = str_bytes s ∧
      (pr.prepare_body data files json).headers.get "Content-Type"
        = some "application/json") ∧
    (∀ s, json = none → data = some (body_data.str s) →
      (pr.prepare_body data files json).body = str_bytes s) ∧
    (∀ b, json = none → data = some (body_data.bytes b) →
      (pr.prepare_body data files json).body = b) := by
  refine ⟨rfl, ?_, ?_, ?_⟩
  · rintro s rfl
    refine ⟨?_, ?_⟩
    · simp only [prepared_request.prepare_body]
      rw [prepare_content_length_body]
    · simp only [prepared_request.prepare_body]
      rw [prepare_content_length_get _ _ (by decide)]
      rw [cid_get_set]
      simp
  · rintro s rfl rfl
    simp only [prepared_request.prepare_body]
    rw [prepare_content_length_body]
  · rintro b rfl rfl
    simp only [prepared_request.prepare_body]
    rw [prepare_content_length_body]

/-- C4 witness: json overrides data and sets application/json. -/
theorem prepare_body_precedence_witness :
    (prepared_request.prepare_body {} (some (body_data.str "ignored"))
        none (some "null")).body = str_bytes "null" ∧
    (prepared_request.prepare_body {} (some (body_data.str "ignored"))
        none (some "null")).headers.get "Content-Type"
      = some "application/json" :=
  (prepare_body_precedence {} (some (body_data.str "ignored")) none
      (some "null")).2.1 "null" rfl

/-- C7 counterexample: inserting two cookies sharing (name, domain,
path) leaves both in the jar - the second is appended, not replaced -
and a read still returns the first value. -/
theorem set_cookie_duplicate_triple :
    ((cookie_jar.set_cookie (cookie_jar.set_cookie ⟨[]⟩
        { name := "n", value := "v1", domain := "d", path := "/" })
        { name := "n", value := "v2", domain := "d",
          path := "/" }).cookies.countP
      (fun c => same_triple c
        { name := "n", value := "v1", domain := "d", path := "/" })) = 2 ∧
    (cookie_jar.set_cookie (cookie_jar.set_cookie ⟨[]⟩
        { name := "n", value := "v1", domain := "d", path := "/" })
        { name := "n", value := "v2", domain := "d", path := "/" }).get
      "n" none none = some "v1" := by
  refine ⟨by decide, by decide⟩

/-- C7 amended: set_cookie appends unconditionally, so an entry
sharing (name, domain, path) is never replaced and the number of
entries carrying that triple always grows by one. -/
theorem set_cookie_always_appends (j : cookie_jar) (c : cookie) :
    (j.set_cookie c).cookies = j.cookies ++ [c] ∧
    (j.set_cookie c).cookies.countP (same_triple c) =
      j.cookies.countP (same_triple c) + 1 := by
  refine ⟨rfl, ?_⟩
  rw [show (j.set_cookie c).cookies = j.cookies ++ [c] from rfl,
    List.countP_append]
  simp [List.countP_cons, same_triple]

end Requests
